import Mathlib

/-!
Verification development for the normark trading-journal backend.

The Go source is shallowly embedded: entities become structures, the
relational store becomes a list of rows (soft delete = a Boolean flag set
by delete and filtered by every read, mirroring the bun `soft_delete`
column), `float64` money fields become rationals, and fallible
collaborators (bcrypt, JSON codecs, the URL validator, the Redis cache)
become explicit function parameters or small state records.  Each service
or handler function is translated clause by clause from its Go
counterpart, keeping the source's names.
-/

namespace Normark

/-- UUIDs are abstracted to naturals; `uuid.Nil` is 0. -/
abbrev UUID := Nat

def uuidNil : UUID := 0

/-! ### Enum validity checks, from internal/types/trading_journal.go.
Go models each enum as a string type with an `IsValid` switch; the
embedding keeps the string representation and the switch. -/

def tradingSessionIsValid (s : String) : Bool :=
  s == "asia" || s == "london" || s == "new_york"

def tradeTypeIsValid (t : String) : Bool :=
  t == "swing" || t == "intraday"

def tradeDirectionIsValid (d : String) : Bool :=
  d == "buy" || d == "sell"

def entryTypeIsValid (e : String) : Bool :=
  e == "market" || e == "limit"

def tradeResultIsValid (r : String) : Bool :=
  r == "TP" || r == "SL" || r == "BE"

def timeFrameIsValid (tf : String) : Bool :=
  tf == "1M" || tf == "5M" || tf == "15M" || tf == "30M" ||
  tf == "1H" || tf == "4H" || tf == "1D" || tf == "1W" || tf == "1MO"

def currencyPairIsValid (cp : String) : Bool :=
  cp == "EURUSD" || cp == "GBPUSD" || cp == "USDJPY" || cp == "USDCHF" ||
  cp == "AUDUSD" || cp == "USDCAD" || cp == "NZDUSD" ||
  cp == "EURGBP" || cp == "EURJPY" || cp == "GBPJPY" || cp == "EURCHF" ||
  cp == "EURAUD" || cp == "EURCAD" || cp == "GBPCHF" || cp == "GBPAUD" ||
  cp == "GBPCAD" || cp == "USDTRY" || cp == "USDMXN" || cp == "USDZAR" ||
  cp == "USDNOK" || cp == "USDSEK"

/-! ### Entities, from internal/entity.  `deleted` models the nullable
`deleted_at` soft-delete column: `true` means the row carries a deletion
timestamp and is filtered out of every read. -/

/-- internal/entity/trading_journal_entry.go: TradingJournalEntry. -/
structure TradingJournalEntry where
  id : UUID
  journalID : UUID
  day : Nat
  asset : String
  ltf : String
  htf : String
  entryCharts : List String
  session : String
  tradeType : String
  setup : Option String
  direction : String
  entryType : String
  realized : Rat
  maxRR : Rat
  result : String
  notes : String
  deleted : Bool
deriving Repr, DecidableEq

/-- internal/entity/trading_journal.go: TradingJournal. -/
structure TradingJournal where
  id : UUID
  userID : UUID
  name : String
  description : String
  deleted : Bool
deriving Repr, DecidableEq

/-- internal/entity/user.go: User (password holds the bcrypt hash). -/
structure User where
  id : UUID
  email : String
  username : String
  password : String
  deleted : Bool
deriving Repr, DecidableEq

/-! ### Entry validation, from internal/entity/trading_journal_entry.go. -/

/-- The sentinel errors of internal/entity (errors.go). -/
inductive EntryErr where
  | invalidJournalID
  | invalidAsset
  | invalidLTF
  | invalidHTF
  | invalidSession
  | invalidTradeType
  | invalidDirection
  | invalidEntryType
  | invalidResult
deriving Repr, DecidableEq

/-- `TradingJournalEntry.Validate`: the nested early-return checks,
translated clause by clause.  `none` models a nil error. -/
def TradingJournalEntry.Validate (tje : TradingJournalEntry) : Option EntryErr :=
  if tje.journalID == uuidNil then some .invalidJournalID
  else if !(currencyPairIsValid tje.asset) then some .invalidAsset
  else if !(timeFrameIsValid tje.ltf) then some .invalidLTF
  else if !(timeFrameIsValid tje.htf) then some .invalidHTF
  else if !(tradingSessionIsValid tje.session) then some .invalidSession
  else if !(tradeTypeIsValid tje.tradeType) then some .invalidTradeType
  else if !(tradeDirectionIsValid tje.direction) then some .invalidDirection
  else if !(entryTypeIsValid tje.entryType) then some .invalidEntryType
  else if !(tradeResultIsValid tje.result) then some .invalidResult
  else none

/-- The ordered check list claimed by the spec for `Validate`: each pair is
(check fails, error returned for it), in the documented order. -/
def entryValidationChecks (tje : TradingJournalEntry) : List (Bool × EntryErr) :=
  [ (tje.journalID == uuidNil, .invalidJournalID),
    (!(currencyPairIsValid tje.asset), .invalidAsset),
    (!(timeFrameIsValid tje.ltf), .invalidLTF),
    (!(timeFrameIsValid tje.htf), .invalidHTF),
    (!(tradingSessionIsValid tje.session), .invalidSession),
    (!(tradeTypeIsValid tje.tradeType), .invalidTradeType),
    (!(tradeDirectionIsValid tje.direction), .invalidDirection),
    (!(entryTypeIsValid tje.entryType), .invalidEntryType),
    (!(tradeResultIsValid tje.result), .invalidResult) ]

/-- First-failure semantics: the error of the first check that fails,
`none` when every check passes. -/
def firstFailingCheck (tje : TradingJournalEntry) : Option EntryErr :=
  ((entryValidationChecks tje).find? (fun p => p.1)).map (fun p => p.2)

/-- internal/entity/trading_journal.go: journal validation errors. -/
inductive JournalErr where
  | invalidUserID
  | invalidJournalName
deriving Repr, DecidableEq

/-- `TradingJournal.Validate`. -/
def TradingJournal.Validate (tj : TradingJournal) : Option JournalErr :=
  if tj.userID == uuidNil then some .invalidUserID
  else if tj.name == "" then some .invalidJournalName
  else none

/-! ### Storage layer, from internal/storage/bun.  A table is a list of
rows; bun's `soft_delete` makes every SELECT/COUNT filter `deleted_at IS
NULL` and turns DELETE into an update of `deleted_at` on live rows. -/

/-- `TradingJournalStorage.Exists`: COUNT of live rows with
`id = ? AND user_id = ?`, compared with 0. -/
def journalStorageExists (js : List TradingJournal) (id userID : UUID) : Bool :=
  0 < (js.filter (fun j => !j.deleted && j.id == id && j.userID == userID)).length

/-- `TradingJournalEntryStorage.Exists`: COUNT of live rows with
`id = ? AND journal_id = ?`, compared with 0. -/
def entryStorageExists (es : List TradingJournalEntry) (id journalID : UUID) : Bool :=
  0 < (es.filter (fun e => !e.deleted && e.id == id && e.journalID == journalID)).length

/-- `TradingJournalStorage.GetByID`: SELECT of the live row with the id;
`none` models the sql.ErrNoRows error path. -/
def journalStorageGetByID (js : List TradingJournal) (id : UUID) : Option TradingJournal :=
  js.find? (fun j => !j.deleted && j.id == id)

/-- `TradingJournalEntryStorage.GetByID`. -/
def entryStorageGetByID (es : List TradingJournalEntry) (id : UUID) : Option TradingJournalEntry :=
  es.find? (fun e => !e.deleted && e.id == id)

/-- `TradingJournalEntryStorage.CountByJournalID`: COUNT of live rows with
`journal_id = ?`. -/
def countByJournalID (es : List TradingJournalEntry) (journalID : UUID) : Nat :=
  (es.filter (fun e => !e.deleted && e.journalID == journalID)).length

/-- Live entries of one journal, the row set every per-journal aggregate
query ranges over. -/
def journalEntries (es : List TradingJournalEntry) (journalID : UUID) : List TradingJournalEntry :=
  es.filter (fun e => !e.deleted && e.journalID == journalID)

/-- Rows of the `GROUP BY result` aggregate for one result value. -/
def resultCount (es : List TradingJournalEntry) (journalID : UUID) (r : String) : Nat :=
  (es.filter (fun e => !e.deleted && e.journalID == journalID && e.result == r)).length

/-- The `SELECT result, COUNT(*) ... GROUP BY result` rows: one pair per
result value present among the journal's live entries. -/
def resultStats (es : List TradingJournalEntry) (journalID : UUID) : List (String × Nat) :=
  (((journalEntries es journalID).map (fun e => e.result)).dedup).map
    (fun r => (r, resultCount es journalID r))

/-- `SUM(realized)` with COALESCE to 0. -/
def totalRealizedSum (es : List TradingJournalEntry) (journalID : UUID) : Rat :=
  ((journalEntries es journalID).map (fun e => e.realized)).sum

/-- `AVG(max_rr)` with COALESCE to 0 for the empty row set. -/
def avgMaxRR (es : List TradingJournalEntry) (journalID : UUID) : Rat :=
  let rows := journalEntries es journalID
  if rows.length == 0 then 0
  else ((rows.map (fun e => e.maxRR)).sum) / (rows.length : Rat)

/-- The `map[string]any` statistics map: each key is present (`some`)
exactly when the Go code has stored a value of the asserted type under it. -/
structure StatsMap where
  total_trades : Option Nat
  wins : Option Nat
  losses : Option Nat
  break_even : Option Nat
  win_rate : Option Rat
  total_realized : Option Rat
  avg_risk_reward : Option Rat
deriving Repr, DecidableEq

def StatsMap.empty : StatsMap :=
  { total_trades := none, wins := none, losses := none, break_even := none,
    win_rate := none, total_realized := none, avg_risk_reward := none }

/-- The switch in `TradingJournalEntryStorage.GetStatistics` that files one
group-by row into its bucket key; unknown results are ignored. -/
def applyResultStat (s : StatsMap) (p : String × Nat) : StatsMap :=
  if p.1 == "TP" then { s with wins := some p.2 }
  else if p.1 == "SL" then { s with losses := some p.2 }
  else if p.1 == "BE" then { s with break_even := some p.2 }
  else s

/-- `TradingJournalEntryStorage.GetStatistics`: total count, group-by
result buckets (a bucket key is set only when its group-by row exists),
coalesced sum of realized and average of max_rr.  `win_rate` is not set by
the storage layer. -/
def storageGetStatistics (es : List TradingJournalEntry) (journalID : UUID) : StatsMap :=
  let base := { StatsMap.empty with total_trades := some (countByJournalID es journalID) }
  let withResults := (resultStats es journalID).foldl applyResultStat base
  { withResults with
      total_realized := some (totalRealizedSum es journalID),
      avg_risk_reward := some (avgMaxRR es journalID) }

/-! ### Soft deletes, from internal/storage/bun. -/

/-- `TradingJournalStorage.Delete`: bun soft delete sets `deleted_at` on
live rows with the id; zero rows affected is the not-found error. -/
def journalStorageDelete (js : List TradingJournal) (id : UUID) :
    List TradingJournal × Except String Unit :=
  let affected := (js.filter (fun j => !j.deleted && j.id == id)).length
  let js2 := js.map (fun j => if !j.deleted && j.id == id then { j with deleted := true } else j)
  if affected == 0 then (js2, .error "trading journal not found")
  else (js2, .ok ())

/-- `TradingJournalEntryStorage.Delete`. -/
def entryStorageDelete (es : List TradingJournalEntry) (id : UUID) :
    List TradingJournalEntry × Except String Unit :=
  let affected := (es.filter (fun e => !e.deleted && e.id == id)).length
  let es2 := es.map (fun e => if !e.deleted && e.id == id then { e with deleted := true } else e)
  if affected == 0 then (es2, .error "trading journal entry not found")
  else (es2, .ok ())

/-- `TradingJournalStorage.Update`: UPDATE by primary key over live rows;
zero rows affected is the not-found error. -/
def journalStorageUpdate (js : List TradingJournal) (j : TradingJournal) :
    List TradingJournal × Except String Unit :=
  let affected := (js.filter (fun row => !row.deleted && row.id == j.id)).length
  let js2 := js.map (fun row => if !row.deleted && row.id == j.id then j else row)
  if affected == 0 then (js2, .error "trading journal not found")
  else (js2, .ok ())

/-- `TradingJournalEntryStorage.Update`. -/
def entryStorageUpdate (es : List TradingJournalEntry) (e : TradingJournalEntry) :
    List TradingJournalEntry × Except String Unit :=
  let affected := (es.filter (fun row => !row.deleted && row.id == e.id)).length
  let es2 := es.map (fun row => if !row.deleted && row.id == e.id then e else row)
  if affected == 0 then (es2, .error "trading journal entry not found")
  else (es2, .ok ())

/-! ### Entry service, from internal/service (trading journal entry). -/

/-- `TradingJournalEntryService.GetStatistics`: fetch the storage map,
then derive `win_rate` — wins (defaulted to 0 when the key is absent)
divided by total, times 100, when the total-trades key holds a positive
int; 0.0 otherwise. -/
def serviceGetStatistics (es : List TradingJournalEntry) (journalID : UUID) : StatsMap :=
  let stats := storageGetStatistics es journalID
  match stats.total_trades with
  | some totalTrades =>
      if 0 < totalTrades then
        let wins := stats.wins.getD 0
        { stats with win_rate := some ((wins : Rat) / (totalTrades : Rat) * 100) }
      else
        { stats with win_rate := some 0 }
  | none => { stats with win_rate := some 0 }

/-- internal/dto: TradingJournalStatisticsResponse. -/
structure TradingJournalStatisticsResponse where
  total_trades : Nat
  wins : Nat
  losses : Nat
  break_even : Nat
  win_rate : Rat
  total_realized : Rat
  avg_risk_reward : Rat
deriving Repr, DecidableEq

/-- internal/dto/mapper/trading_journal_entry.go `ToStatisticsResponse`:
each field is copied when its key holds a value of the asserted type and
keeps the zero value otherwise. -/
def ToStatisticsResponse (stats : StatsMap) : TradingJournalStatisticsResponse :=
  { total_trades := stats.total_trades.getD 0,
    wins := stats.wins.getD 0,
    losses := stats.losses.getD 0,
    break_even := stats.break_even.getD 0,
    win_rate := stats.win_rate.getD 0,
    total_realized := stats.total_realized.getD 0,
    avg_risk_reward := stats.avg_risk_reward.getD 0 }

/-- `TradingJournalEntryService.Delete`: check `Exists(id, journalID)`;
refuse with the opaque not-found-or-access-denied error when it fails,
otherwise soft delete.  The returned list is the resulting entry table. -/
def entryServiceDelete (es : List TradingJournalEntry) (id journalID : UUID) :
    List TradingJournalEntry × Except String Unit :=
  if entryStorageExists es id journalID then
    match entryStorageDelete es id with
    | (es2, .ok _) => (es2, .ok ())
    | (es2, .error e) => (es2, .error e)
  else
    (es, .error "trading journal entry not found or access denied")

/-- `TradingJournalEntryService.VerifyAccess` = the storage Exists check. -/
def entryServiceVerifyAccess (es : List TradingJournalEntry) (entryID journalID : UUID) : Bool :=
  entryStorageExists es entryID journalID

/-! ### Journal service, direct variant, from
internal/service/trading_journal.go (the snapshot without a cache
field). -/

/-- Direct `TradingJournalService.GetByID`: a plain store read. -/
def directServiceGetByID (js : List TradingJournal) (id : UUID) : Option TradingJournal :=
  journalStorageGetByID js id

/-- Direct `TradingJournalService.Update`: validate, then store update. -/
def directServiceUpdate (js : List TradingJournal) (j : TradingJournal) :
    List TradingJournal × Except String Unit :=
  match j.Validate with
  | some _ => (js, .error "invalid trading journal data")
  | none =>
      match journalStorageUpdate js j with
      | (js2, .ok _) => (js2, .ok ())
      | (js2, .error e) => (js2, .error e)

/-- Direct `TradingJournalService.Delete`: ownership check via
`Exists(id, userID)`, refusal with the opaque error, then soft delete. -/
def directServiceDelete (js : List TradingJournal) (id userID : UUID) :
    List TradingJournal × Except String Unit :=
  if journalStorageExists js id userID then
    match journalStorageDelete js id with
    | (js2, .ok _) => (js2, .ok ())
    | (js2, .error e) => (js2, .error e)
  else
    (js, .error "trading journal not found or access denied")

/-- `TradingJournalService.VerifyAccess` = the storage Exists check. -/
def journalServiceVerifyAccess (js : List TradingJournal) (journalID userID : UUID) : Bool :=
  journalStorageExists js journalID userID

/-! ### Cache collaborator and the cache-aware journal service, from the
service snapshot with a `cache Cache` field (WithCache).  The Redis
key-value store becomes an association list from key to (value, TTL in
minutes); `getFails`/`setFails`/`deleteFails` inject the infrastructure
failures the Go code branches on. -/

structure Cache where
  store : List (String × String × Nat)
  getFails : Bool
  setFails : Bool
  deleteFails : Bool
deriving Repr, DecidableEq

/-- `cache.Get`: an error either from the transport or because the key is
absent (redis.Nil is surfaced as an error); otherwise the stored string. -/
def cacheGet (c : Cache) (key : String) : Except Unit String :=
  if c.getFails then .error ()
  else
    match c.store.find? (fun p => p.1 == key) with
    | some p => .ok p.2.1
    | none => .error ()

/-- `cache.Set` with a TTL: on failure the state is unchanged and an error
is returned; on success the key is (re)bound. -/
def cacheSet (c : Cache) (key value : String) (ttlMinutes : Nat) :
    Cache × Except Unit Unit :=
  if c.setFails then (c, .error ())
  else
    ({ c with store := (key, value, ttlMinutes) :: c.store.filter (fun p => !(p.1 == key)) },
     .ok ())

/-- `cache.Delete`. -/
def cacheDelete (c : Cache) (key : String) : Cache × Except Unit Unit :=
  if c.deleteFails then (c, .error ())
  else ({ c with store := c.store.filter (fun p => !(p.1 == key)) }, .ok ())

/-- The cache key `"journal:" + id.String()`. -/
def journalCacheKey (id : UUID) : String := "journal:" ++ toString id

/-- Outcome of the cache-aware GetByID: the returned journal (`none` is
the error path), whether the primary store was read, and the resulting
cache state. -/
structure CachedGetByIDResult where
  journal : Option TradingJournal
  storeRead : Bool
  cache : Option Cache
deriving Repr, DecidableEq

/-- The fall-through half of the cache-aware `GetByID`: read the store;
on success best-effort populate the cache under the key with a 15-minute
expiry (json.Marshal of a journal value always succeeds, modelled by the
total encoder `enc`); a Set failure is logged and swallowed. -/
def cachedServiceGetByIDStore (enc : TradingJournal → String)
    (cache : Option Cache) (js : List TradingJournal) (id : UUID) : CachedGetByIDResult :=
  match journalStorageGetByID js id with
  | none => { journal := none, storeRead := true, cache := cache }
  | some j =>
      match cache with
      | none => { journal := some j, storeRead := true, cache := none }
      | some c =>
          let setOutcome := cacheSet c (journalCacheKey id) (enc j) 15
          { journal := some j, storeRead := true, cache := some setOutcome.1 }

/-- Cache-aware `TradingJournalService.GetByID`: when a cache is
configured, a Get that returns no error and a non-empty string which
deserializes (`dec`, modelling json.Unmarshal) is returned without
touching the store; every other case falls through to the store. -/
def cachedServiceGetByID (enc : TradingJournal → String)
    (dec : String → Option TradingJournal)
    (cache : Option Cache) (js : List TradingJournal) (id : UUID) : CachedGetByIDResult :=
  match cache with
  | none => cachedServiceGetByIDStore enc cache js id
  | some c =>
      match cacheGet c (journalCacheKey id) with
      | .ok cached =>
          if cached != "" then
            match dec cached with
            | some j => { journal := some j, storeRead := false, cache := some c }
            | none => cachedServiceGetByIDStore enc cache js id
          else cachedServiceGetByIDStore enc cache js id
      | .error _ => cachedServiceGetByIDStore enc cache js id

/-- Cache-aware `TradingJournalService.Update`: validate, store update,
then best-effort invalidation of the key when a cache is configured
(failures logged and swallowed). -/
def cachedServiceUpdate (cache : Option Cache) (js : List TradingJournal)
    (j : TradingJournal) : List TradingJournal × Option Cache × Except String Unit :=
  match j.Validate with
  | some _ => (js, cache, .error "invalid trading journal data")
  | none =>
      match journalStorageUpdate js j with
      | (js2, .error e) => (js2, cache, .error e)
      | (js2, .ok _) =>
          match cache with
          | none => (js2, none, .ok ())
          | some c => (js2, some (cacheDelete c (journalCacheKey j.id)).1, .ok ())

/-- Cache-aware `TradingJournalService.Delete`: ownership check, refusal
with the opaque error, soft delete, then best-effort invalidation. -/
def cachedServiceDelete (cache : Option Cache) (js : List TradingJournal)
    (id userID : UUID) : List TradingJournal × Option Cache × Except String Unit :=
  if journalStorageExists js id userID then
    match journalStorageDelete js id with
    | (js2, .error e) => (js2, cache, .error e)
    | (js2, .ok _) =>
        match cache with
        | none => (js2, none, .ok ())
        | some c => (js2, some (cacheDelete c (journalCacheKey id)).1, .ok ())
  else
    (js, cache, .error "trading journal not found or access denied")

/-! ### Request DTO validation, from internal/dto and the go-playground
validator tags.  `CreateTradingJournalEntryRequest` and
`UpdateTradingJournalEntryRequest` carry identical fields and identical
tags, so one structure embeds both.  Tag semantics: `required` is
non-zero-value (non-empty string, non-zero number, non-zero time),
`gt=0` is strictly positive, `url` is the validator's URL check
(an external collaborator, passed in as `isURL`), `omitempty,max=n` caps
the length when the field is present. -/

structure TradingJournalEntryRequest where
  day : Nat
  asset : String
  ltf : String
  htf : String
  entryCharts : List String
  session : String
  tradeType : String
  setup : Option String
  direction : String
  entryType : String
  realized : Rat
  maxRR : Rat
  result : String
  notes : String
deriving Repr, DecidableEq

/-- `validate.Struct` over the entry request tags. -/
def validateEntryRequest (isURL : String → Bool) (req : TradingJournalEntryRequest) : Bool :=
  (req.day != 0) &&
  (req.asset != "") &&
  (req.ltf != "" && isURL req.ltf) &&
  (req.htf != "" && isURL req.htf) &&
  (req.entryCharts.all isURL) &&
  (req.session != "") &&
  (req.tradeType != "") &&
  (match req.setup with | none => true | some s => s.length ≤ 500) &&
  (req.direction != "") &&
  (req.entryType != "") &&
  (req.realized != 0) &&
  (req.maxRR != 0 && 0 < req.maxRR) &&
  (req.result != "") &&
  (req.notes.length ≤ 5000)

/-- `entity.NewTradingJournalEntry` applied to a create request, with the
database-assigned primary key `newID`; a fresh row is live. -/
def newEntryFromRequest (newID journalID : UUID) (req : TradingJournalEntryRequest) :
    TradingJournalEntry :=
  { id := newID, journalID := journalID, day := req.day, asset := req.asset,
    ltf := req.ltf, htf := req.htf, entryCharts := req.entryCharts,
    session := req.session, tradeType := req.tradeType, setup := req.setup,
    direction := req.direction, entryType := req.entryType,
    realized := req.realized, maxRR := req.maxRR, result := req.result,
    notes := req.notes, deleted := false }

/-! ### HTTP handlers, from internal/controller/http/v1.  Route-parameter
parsing and JSON binding are elided (ids arrive parsed); each handler
returns the resulting entry table together with the response, `Except`
errors covering every non-2xx branch. -/

/-- `TradingJournalEntryHandler.Create` followed by
`TradingJournalEntryService.Create`: struct validation, journal existence
probe (`journalStorage.GetByID`), entity construction, entity validation,
then the insert. -/
def handlerCreateEntry (isURL : String → Bool) (js : List TradingJournal)
    (es : List TradingJournalEntry) (newID journalID : UUID)
    (req : TradingJournalEntryRequest) :
    List TradingJournalEntry × Except String TradingJournalEntry :=
  if !(validateEntryRequest isURL req) then (es, .error "validation failed")
  else
    match journalStorageGetByID js journalID with
    | none => (es, .error "journal not found")
    | some _ =>
        let entry := newEntryFromRequest newID journalID req
        match entry.Validate with
        | some _ => (es, .error "invalid trading journal entry data")
        | none => (es ++ [entry], .ok entry)

/-- `TradingJournalEntryHandler.Update` followed by
`TradingJournalEntryService.Update`: struct validation, the
`VerifyAccess(entryID, journalID)` ownership check with its 403 refusal,
the entry fetch, field overwrite from the request, entity validation, and
the store update. -/
def handlerUpdateEntry (isURL : String → Bool) (es : List TradingJournalEntry)
    (entryID journalID : UUID) (req : TradingJournalEntryRequest) :
    List TradingJournalEntry × Except String TradingJournalEntry :=
  if !(validateEntryRequest isURL req) then (es, .error "validation failed")
  else if !(entryServiceVerifyAccess es entryID journalID) then (es, .error "access denied")
  else
    match entryStorageGetByID es entryID with
    | none => (es, .error "entry not found")
    | some entry =>
        let entry2 := { entry with
          day := req.day, asset := req.asset, ltf := req.ltf, htf := req.htf,
          entryCharts := req.entryCharts, session := req.session,
          tradeType := req.tradeType, setup := req.setup,
          direction := req.direction, entryType := req.entryType,
          realized := req.realized, maxRR := req.maxRR, result := req.result,
          notes := req.notes }
        match entry2.Validate with
        | some _ => (es, .error "invalid trading journal entry data")
        | none =>
            match entryStorageUpdate es entry2 with
            | (es2, .ok _) => (es2, .ok entry2)
            | (es2, .error e) => (es2, .error e)

/-- `TradingJournalEntryHandler.GetByID`: the
`VerifyAccess(entryID, journalID)` check with its 403 refusal, then the
entry fetch with its 404. -/
def handlerEntryGetByID (es : List TradingJournalEntry) (journalID entryID : UUID) :
    Except String TradingJournalEntry :=
  if !(entryServiceVerifyAccess es entryID journalID) then .error "access denied"
  else
    match entryStorageGetByID es entryID with
    | none => .error "entry not found"
    | some entry => .ok entry

/-- `TradingJournalEntryHandler.GetStatistics`: the journal id is taken
from the route path and passed straight to the service; the handler
consults no authenticated user id and performs no ownership check. -/
def handlerGetStatistics (es : List TradingJournalEntry) (journalID : UUID) :
    Except String TradingJournalStatisticsResponse :=
  .ok (ToStatisticsResponse (serviceGetStatistics es journalID))

/-- `TradingJournalHandler.GetByID`: the id from the route path is passed
straight to the service read; no ownership check against the caller. -/
def handlerJournalGetByID (js : List TradingJournal) (id : UUID) :
    Except String TradingJournal :=
  match directServiceGetByID js id with
  | none => .error "journal not found"
  | some j => .ok j

/-! ### Sign-in, from the user service.  bcrypt verification and JWT
minting are external collaborators, passed in as functions. -/

structure TokenPair where
  accessToken : String
  refreshToken : String
  expiresAt : Nat
deriving Repr, DecidableEq

inductive SignInErr where
  | invalidCredentials
  | tokenGeneration
deriving Repr, DecidableEq

/-- `UserStorage.GetByEmail`: the live row with the email, `none` for the
sql.ErrNoRows path. -/
def userStorageGetByEmail (us : List User) (email : String) : Option User :=
  us.find? (fun u => !u.deleted && u.email == email)

/-- `UserService.SignIn`: a failed email lookup and a failed bcrypt
compare both return the one sentinel `ErrInvalidCredentials`; only a
successful compare reaches token generation. -/
def signIn (verify : String → String → Bool)
    (gen : UUID → String → String → Except Unit TokenPair)
    (us : List User) (email password : String) : Except SignInErr TokenPair :=
  match userStorageGetByEmail us email with
  | none => .error .invalidCredentials
  | some user =>
      if !(verify user.password password) then .error .invalidCredentials
      else
        match gen user.id user.email user.username with
        | .error _ => .error .tokenGeneration
        | .ok tokens => .ok tokens

/-! ## Theorems -/

/-- C6: `Validate()` on an entry performs its checks in exactly the
documented order — journal id non-nil, asset, LTF, HTF, session, trade
type, direction, entry type, result — returning the specific error of the
first failing check without evaluating later ones and without
accumulating errors, and `none` (nil) when every check passes. -/
theorem C6_validate_first_failing (tje : TradingJournalEntry) :
    tje.Validate = firstFailingCheck tje := by
  simp only [TradingJournalEntry.Validate, firstFailingCheck, entryValidationChecks]
  cases h1 : (tje.journalID == uuidNil) <;>
    cases h2 : currencyPairIsValid tje.asset <;>
      cases h3 : timeFrameIsValid tje.ltf <;>
        cases h4 : timeFrameIsValid tje.htf <;>
          cases h5 : tradingSessionIsValid tje.session <;>
            cases h6 : tradeTypeIsValid tje.tradeType <;>
              cases h7 : tradeDirectionIsValid tje.direction <;>
                cases h8 : entryTypeIsValid tje.entryType <;>
                  cases h9 : tradeResultIsValid tje.result <;>
                    simp [List.find?, h1, h2, h3, h4, h5, h6, h7, h8, h9]

/-! ### Concrete sample rows used by witnesses (Scenario A values:
Realized 120.50, MaxRR 2.5, Result TP). -/

def sampleJournal : TradingJournal :=
  { id := 1, userID := 1, name := "Forex Main", description := "", deleted := false }

def sampleEntryTP : TradingJournalEntry :=
  { id := 10, journalID := 1, day := 1, asset := "EURUSD", ltf := "1H", htf := "4H",
    entryCharts := [], session := "london", tradeType := "swing", setup := none,
    direction := "buy", entryType := "market", realized := 241/2, maxRR := 5/2,
    result := "TP", notes := "", deleted := false }

/-- C4: `JournalBelongsToUser` (journal Exists) is true iff a non-deleted
journal with the id and user id is in the store; `EntryBelongsToJournal`
(entry Exists) is true iff a non-deleted entry with the id and journal id
is in the store; and, ids being primary keys (Nodup), an entry's Exists
check is false for every journal other than the entry's real journal. -/
theorem C4_exists_characterization (js : List TradingJournal)
    (es : List TradingJournalEntry)
    (hids : (es.map (fun e => e.id)).Nodup) :
    (∀ id userID, journalStorageExists js id userID = true ↔
        ∃ j, j ∈ js ∧ j.deleted = false ∧ j.id = id ∧ j.userID = userID) ∧
    (∀ id journalID, entryStorageExists es id journalID = true ↔
        ∃ e, e ∈ es ∧ e.deleted = false ∧ e.id = id ∧ e.journalID = journalID) ∧
    (∀ e, e ∈ es → e.deleted = false → ∀ journalID, journalID ≠ e.journalID →
        entryStorageExists es e.id journalID = false) := by
  have hj : ∀ id userID, journalStorageExists js id userID = true ↔
      ∃ j, j ∈ js ∧ j.deleted = false ∧ j.id = id ∧ j.userID = userID := by
    intro id userID
    simp [journalStorageExists, ← List.countP_eq_length_filter, List.countP_pos_iff,
      Bool.and_eq_true, beq_iff_eq, Bool.not_eq_true', and_assoc]
  have he : ∀ id journalID, entryStorageExists es id journalID = true ↔
      ∃ e, e ∈ es ∧ e.deleted = false ∧ e.id = id ∧ e.journalID = journalID := by
    intro id journalID
    simp [entryStorageExists, ← List.countP_eq_length_filter, List.countP_pos_iff,
      Bool.and_eq_true, beq_iff_eq, Bool.not_eq_true', and_assoc]
  refine ⟨hj, he, ?_⟩
  intro e hmem hdel journalID hne
  by_contra hcontra
  rw [Bool.not_eq_false, he e.id journalID] at hcontra
  obtain ⟨e2, hmem2, _, hid2, hjid2⟩ := hcontra
  have heq : e2 = e := List.inj_on_of_nodup_map hids hmem2 hmem hid2
  subst heq
  exact hne hjid2.symm

/-- Witness for C4 at a concrete one-journal, one-entry store. -/
theorem C4_witness :
    ((([sampleEntryTP]).map (fun e => e.id)).Nodup) ∧
    journalStorageExists [sampleJournal] 1 1 = true ∧
    entryStorageExists [sampleEntryTP] 10 2 = false := by
  have hnd : (([sampleEntryTP]).map (fun e => e.id)).Nodup := by simp
  have h := C4_exists_characterization [sampleJournal] [sampleEntryTP] hnd
  refine ⟨hnd, (h.1 1 1).mpr
    ⟨sampleJournal, List.mem_singleton.mpr rfl, rfl, rfl, rfl⟩, ?_⟩
  have := h.2.2 sampleEntryTP (List.mem_singleton.mpr rfl) rfl 2 (by decide)
  exact this

/-- The direct journal service refuses a delete whose ownership check
fails, leaving the store untouched. -/
theorem directServiceDelete_not_owner (js : List TradingJournal) (id userID : UUID)
    (h : journalStorageExists js id userID = false) :
    directServiceDelete js id userID =
      (js, .error "trading journal not found or access denied") := by
  simp [directServiceDelete, h]

/-- The entry service refuses a delete whose ownership check fails,
leaving the store untouched. -/
theorem entryServiceDelete_not_owner (es : List TradingJournalEntry) (id journalID : UUID)
    (h : entryStorageExists es id journalID = false) :
    entryServiceDelete es id journalID =
      (es, .error "trading journal entry not found or access denied") := by
  simp [entryServiceDelete, h]

/-- C5: deletes confirm ownership first.  When the check fails — journal
delete with a claimed owner, entry delete with a claimed journal — the
service returns the opaque not-found-or-access-denied error, the store's
delete is never reached, and the tables are returned unchanged (the
journal service delete takes no entry table, so entries are untouched by
construction). -/
theorem C5_delete_requires_ownership (js : List TradingJournal)
    (es : List TradingJournalEntry) (id userID eid journalID : UUID)
    (hjo : journalStorageExists js id userID = false)
    (heo : entryStorageExists es eid journalID = false) :
    directServiceDelete js id userID =
      (js, .error "trading journal not found or access denied") ∧
    entryServiceDelete es eid journalID =
      (es, .error "trading journal entry not found or access denied") :=
  ⟨directServiceDelete_not_owner js id userID hjo,
   entryServiceDelete_not_owner es eid journalID heo⟩

/-- Witness for C5: user 2 attacking user 1's journal, and an entry
addressed through the wrong journal. -/
theorem C5_witness :
    journalStorageExists [sampleJournal] 1 2 = false ∧
    entryStorageExists [sampleEntryTP] 10 2 = false ∧
    directServiceDelete [sampleJournal] 1 2 =
      ([sampleJournal], .error "trading journal not found or access denied") ∧
    entryServiceDelete [sampleEntryTP] 10 2 =
      ([sampleEntryTP], .error "trading journal entry not found or access denied") := by
  have h := C5_delete_requires_ownership [sampleJournal] [sampleEntryTP] 1 2 10 2
    (by decide) (by decide)
  exact ⟨by decide, by decide, h.1, h.2⟩

/-- C10: a sign-in that fails — email not registered, or email present
with a failing bcrypt compare — returns the one sentinel
`ErrInvalidCredentials` in both cases, so the two causes are
indistinguishable to the caller, and the `Except.error` result carries no
token pair. -/
theorem C10_signin_uniform_error (verify : String → String → Bool)
    (gen : UUID → String → String → Except Unit TokenPair)
    (us : List User) (email password : String) :
    (userStorageGetByEmail us email = none →
        signIn verify gen us email password = .error .invalidCredentials) ∧
    (∀ u, userStorageGetByEmail us email = some u →
        verify u.password password = false →
        signIn verify gen us email password = .error .invalidCredentials) := by
  constructor
  · intro h
    simp [signIn, h]
  · intro u h hv
    simp [signIn, h, hv]

def sampleUser : User :=
  { id := 1, email := "alice@example.com", username := "alice",
    password := "HASH", deleted := false }

/-- Witness for C10: an unregistered email and a registered email with a
wrong password, under an equality-test stand-in for bcrypt. -/
theorem C10_witness :
    userStorageGetByEmail [sampleUser] "bob@example.com" = none ∧
    signIn (fun h p => h == p) (fun _ _ _ => .ok ⟨"a", "r", 1⟩)
      [sampleUser] "bob@example.com" "pw" = .error .invalidCredentials ∧
    userStorageGetByEmail [sampleUser] "alice@example.com" = some sampleUser ∧
    signIn (fun h p => h == p) (fun _ _ _ => .ok ⟨"a", "r", 1⟩)
      [sampleUser] "alice@example.com" "wrong" = .error .invalidCredentials := by
  have h := C10_signin_uniform_error (fun h p => h == p)
    (fun _ _ _ => .ok ⟨"a", "r", 1⟩) [sampleUser] "bob@example.com" "pw"
  have h2 := C10_signin_uniform_error (fun h p => h == p)
    (fun _ _ _ => .ok ⟨"a", "r", 1⟩) [sampleUser] "alice@example.com" "wrong"
  exact ⟨by decide, h.1 (by decide), by decide,
    h2.2 sampleUser (by decide) (by decide)⟩

/-- With no cache, the cache-aware read is the direct store read. -/
theorem cachedGetByID_none (enc : TradingJournal → String)
    (dec : String → Option TradingJournal) (js : List TradingJournal) (id : UUID) :
    cachedServiceGetByID enc dec none js id =
      { journal := directServiceGetByID js id, storeRead := true, cache := none } := by
  unfold cachedServiceGetByID cachedServiceGetByIDStore directServiceGetByID
  cases journalStorageGetByID js id <;> simp

/-- With no cache, the cache-aware update has the direct update's store
effect and result. -/
theorem cachedUpdate_none (js : List TradingJournal) (j : TradingJournal) :
    cachedServiceUpdate none js j =
      ((directServiceUpdate js j).1, none, (directServiceUpdate js j).2) := by
  unfold cachedServiceUpdate directServiceUpdate
  cases j.Validate <;> simp
  rcases h : journalStorageUpdate js j with ⟨js2, r⟩
  cases r <;> simp

/-- With no cache, the cache-aware delete has the direct delete's store
effect and result. -/
theorem cachedDelete_none (js : List TradingJournal) (id userID : UUID) :
    cachedServiceDelete none js id userID =
      ((directServiceDelete js id userID).1, none,
       (directServiceDelete js id userID).2) := by
  unfold cachedServiceDelete directServiceDelete
  cases journalStorageExists js id userID <;> simp
  rcases h : journalStorageDelete js id with ⟨js2, r⟩
  cases r <;> simp

/-- C9: with the cache dependency absent, `GetByID`, `Update` and
`Delete` of the cache-aware journal service return exactly the direct
implementation's result and leave exactly the direct implementation's
store, and no cache state ever appears. -/
theorem C9_no_cache_is_direct_store (enc : TradingJournal → String)
    (dec : String → Option TradingJournal) (js : List TradingJournal)
    (j : TradingJournal) (id userID : UUID) :
    cachedServiceGetByID enc dec none js id =
      { journal := directServiceGetByID js id, storeRead := true, cache := none } ∧
    cachedServiceUpdate none js j =
      ((directServiceUpdate js j).1, none, (directServiceUpdate js j).2) ∧
    cachedServiceDelete none js id userID =
      ((directServiceDelete js id userID).1, none,
       (directServiceDelete js id userID).2) :=
  ⟨cachedGetByID_none enc dec js id, cachedUpdate_none js j,
   cachedDelete_none js id userID⟩

/-! ### Statistics lemmas -/

theorem applyResultStat_total_trades (s : StatsMap) (p : String × Nat) :
    (applyResultStat s p).total_trades = s.total_trades := by
  unfold applyResultStat
  split_ifs <;> rfl

theorem applyResultStat_win_rate (s : StatsMap) (p : String × Nat) :
    (applyResultStat s p).win_rate = s.win_rate := by
  unfold applyResultStat
  split_ifs <;> rfl

theorem applyResultStat_wins (s : StatsMap) (p : String × Nat) :
    (applyResultStat s p).wins = if p.1 == "TP" then some p.2 else s.wins := by
  unfold applyResultStat
  split_ifs <;> simp_all [beq_iff_eq]

theorem applyResultStat_losses (s : StatsMap) (p : String × Nat) :
    (applyResultStat s p).losses = if p.1 == "SL" then some p.2 else s.losses := by
  unfold applyResultStat
  split_ifs <;> simp_all [beq_iff_eq]

theorem applyResultStat_break_even (s : StatsMap) (p : String × Nat) :
    (applyResultStat s p).break_even = if p.1 == "BE" then some p.2 else s.break_even := by
  unfold applyResultStat
  split_ifs <;> simp_all [beq_iff_eq]

theorem foldl_applyResultStat_total_trades (L : List (String × Nat)) (s : StatsMap) :
    (L.foldl applyResultStat s).total_trades = s.total_trades := by
  induction L generalizing s with
  | nil => rfl
  | cons p L ih => rw [List.foldl_cons, ih, applyResultStat_total_trades]

theorem foldl_applyResultStat_win_rate (L : List (String × Nat)) (s : StatsMap) :
    (L.foldl applyResultStat s).win_rate = s.win_rate := by
  induction L generalizing s with
  | nil => rfl
  | cons p L ih => rw [List.foldl_cons, ih, applyResultStat_win_rate]

/-- Generic group-by lemma: folding the (key, count) rows of a
duplicate-free key list into the map sets a bucket field `g` exactly when
its key occurs, to that key's count. -/
theorem foldl_buckets (g : StatsMap → Option Nat) (key : String)
    (hg : ∀ s p, g (applyResultStat s p) = if p.1 == key then some p.2 else g s)
    (c : String → Nat) (rs : List String) (s : StatsMap) (h : rs.Nodup) :
    g ((rs.map (fun r => (r, c r))).foldl applyResultStat s) =
      if key ∈ rs then some (c key) else g s := by
  induction rs generalizing s with
  | nil => simp
  | cons r rest ih =>
    rw [List.map_cons, List.foldl_cons]
    rcases List.nodup_cons.mp h with ⟨hnotin, hnd⟩
    by_cases hr : r = key
    · subst hr
      rw [ih _ hnd, if_neg hnotin, hg]
      simp
    · rw [ih _ hnd, hg]
      simp [hr, Ne.symm hr]

theorem storageGetStatistics_total (es : List TradingJournalEntry) (jid : UUID) :
    (storageGetStatistics es jid).total_trades = some (countByJournalID es jid) := by
  unfold storageGetStatistics
  simp [foldl_applyResultStat_total_trades, StatsMap.empty]

theorem storageGetStatistics_win_rate (es : List TradingJournalEntry) (jid : UUID) :
    (storageGetStatistics es jid).win_rate = none := by
  unfold storageGetStatistics
  simp [foldl_applyResultStat_win_rate, StatsMap.empty]

/-- A result value absent from a journal's live entries has group count 0. -/
theorem resultCount_eq_zero_of_not_mem (es : List TradingJournalEntry) (jid : UUID)
    (r : String) (h : r ∉ (journalEntries es jid).map (fun e => e.result)) :
    resultCount es jid r = 0 := by
  unfold resultCount
  rw [← List.countP_eq_length_filter, List.countP_eq_zero]
  intro e hmem hpred
  apply h
  simp only [Bool.and_eq_true, Bool.not_eq_true', beq_iff_eq] at hpred
  refine List.mem_map.mpr ⟨e, ?_, hpred.2⟩
  unfold journalEntries
  rw [List.mem_filter]
  exact ⟨hmem, by simp [hpred.1.1, hpred.1.2]⟩

/-- A result value occurring among a journal's live entries is a key of
the group-by row list. -/
theorem mem_results_iff (es : List TradingJournalEntry) (jid : UUID) (r : String) :
    r ∈ ((journalEntries es jid).map (fun e => e.result)).dedup ↔
      r ∈ (journalEntries es jid).map (fun e => e.result) := List.mem_dedup

theorem storageGetStatistics_wins (es : List TradingJournalEntry) (jid : UUID) :
    (storageGetStatistics es jid).wins.getD 0 = resultCount es jid "TP" := by
  unfold storageGetStatistics resultStats
  simp only []
  rw [foldl_buckets (fun s => s.wins) "TP" applyResultStat_wins _ _ _
    (List.nodup_dedup _)]
  by_cases h : "TP" ∈ ((journalEntries es jid).map (fun e => e.result)).dedup
  · simp [h]
  · rw [if_neg h]
    rw [mem_results_iff] at h
    simp [StatsMap.empty, resultCount_eq_zero_of_not_mem es jid "TP" h]

theorem storageGetStatistics_losses (es : List TradingJournalEntry) (jid : UUID) :
    (storageGetStatistics es jid).losses.getD 0 = resultCount es jid "SL" := by
  unfold storageGetStatistics resultStats
  simp only []
  rw [foldl_buckets (fun s => s.losses) "SL" applyResultStat_losses _ _ _
    (List.nodup_dedup _)]
  by_cases h : "SL" ∈ ((journalEntries es jid).map (fun e => e.result)).dedup
  · simp [h]
  · rw [if_neg h]
    rw [mem_results_iff] at h
    simp [StatsMap.empty, resultCount_eq_zero_of_not_mem es jid "SL" h]

theorem storageGetStatistics_break_even (es : List TradingJournalEntry) (jid : UUID) :
    (storageGetStatistics es jid).break_even.getD 0 = resultCount es jid "BE" := by
  unfold storageGetStatistics resultStats
  simp only []
  rw [foldl_buckets (fun s => s.break_even) "BE" applyResultStat_break_even _ _ _
    (List.nodup_dedup _)]
  by_cases h : "BE" ∈ ((journalEntries es jid).map (fun e => e.result)).dedup
  · simp [h]
  · rw [if_neg h]
    rw [mem_results_iff] at h
    simp [StatsMap.empty, resultCount_eq_zero_of_not_mem es jid "BE" h]

/-- The service's win-rate pass only writes `win_rate`; every other key
keeps the storage layer's value. -/
theorem serviceGetStatistics_preserves (es : List TradingJournalEntry) (jid : UUID) :
    (serviceGetStatistics es jid).total_trades = (storageGetStatistics es jid).total_trades ∧
    (serviceGetStatistics es jid).wins = (storageGetStatistics es jid).wins ∧
    (serviceGetStatistics es jid).losses = (storageGetStatistics es jid).losses ∧
    (serviceGetStatistics es jid).break_even = (storageGetStatistics es jid).break_even := by
  unfold serviceGetStatistics
  cases h : (storageGetStatistics es jid).total_trades <;> simp [h]
  split_ifs <;> simp

/-- The service's win-rate value. -/
theorem serviceGetStatistics_win_rate (es : List TradingJournalEntry) (jid : UUID) :
    (serviceGetStatistics es jid).win_rate =
      if 0 < countByJournalID es jid then
        some (((storageGetStatistics es jid).wins.getD 0 : Rat) /
          (countByJournalID es jid : Rat) * 100)
      else some 0 := by
  simp only [serviceGetStatistics]
  rw [storageGetStatistics_total]
  by_cases h : 0 < countByJournalID es jid <;> simp [h]

/-- The per-result group count is the count of that result among the
journal's live entries. -/
theorem resultCount_eq (es : List TradingJournalEntry) (jid : UUID) (r : String) :
    resultCount es jid r =
      ((journalEntries es jid).filter (fun e => e.result == r)).length := by
  unfold resultCount journalEntries
  rw [List.filter_filter]
  refine congrArg List.length (List.filter_congr ?_)
  intro a _
  cases a.deleted <;> cases a.journalID == jid <;> cases a.result == r <;> rfl

/-- A list of entries whose results all lie in the three valid values
partitions into the three result buckets. -/
theorem length_partition_three (l : List TradingJournalEntry)
    (h : ∀ e ∈ l, e.result = "TP" ∨ e.result = "SL" ∨ e.result = "BE") :
    l.length = (l.filter (fun e => e.result == "TP")).length
      + (l.filter (fun e => e.result == "SL")).length
      + (l.filter (fun e => e.result == "BE")).length := by
  induction l with
  | nil => rfl
  | cons e rest ih =>
    have hrest : ∀ e2 ∈ rest, e2.result = "TP" ∨ e2.result = "SL" ∨ e2.result = "BE" :=
      fun e2 h2 => h e2 (List.mem_cons_of_mem _ h2)
    have ihr := ih hrest
    rcases h e (List.mem_cons_self _ _) with h1 | h1 | h1 <;>
      simp [List.filter_cons, h1, ihr] <;> omega

/-- A journal's live entries with valid results partition into the three
result buckets. -/
theorem count_partition (es : List TradingJournalEntry) (jid : UUID)
    (h : ∀ e ∈ es, e.deleted = false → e.journalID = jid →
        tradeResultIsValid e.result = true) :
    countByJournalID es jid =
      resultCount es jid "TP" + resultCount es jid "SL" + resultCount es jid "BE" := by
  have hrows : ∀ e ∈ journalEntries es jid,
      e.result = "TP" ∨ e.result = "SL" ∨ e.result = "BE" := by
    intro e he
    rw [journalEntries, List.mem_filter] at he
    have hflags := he.2
    simp only [Bool.and_eq_true, Bool.not_eq_true', beq_iff_eq] at hflags
    have hv := h e he.1 hflags.1 hflags.2
    simpa [tradeResultIsValid, Bool.or_eq_true, beq_iff_eq, or_assoc] using hv
  rw [resultCount_eq, resultCount_eq, resultCount_eq]
  exact length_partition_three _ hrows

/-- C1: the statistics response has `WinRate = Wins / TotalTrades * 100`
whenever `TotalTrades > 0` and exactly 0 when `TotalTrades = 0`; the
zero-trade case is an ordinary computed result, not an error. -/
theorem C1_win_rate (es : List TradingJournalEntry) (jid : UUID) :
    ((ToStatisticsResponse (serviceGetStatistics es jid)).total_trades = 0 →
      (ToStatisticsResponse (serviceGetStatistics es jid)).win_rate = 0) ∧
    (0 < (ToStatisticsResponse (serviceGetStatistics es jid)).total_trades →
      (ToStatisticsResponse (serviceGetStatistics es jid)).win_rate =
        ((ToStatisticsResponse (serviceGetStatistics es jid)).wins : Rat) /
          ((ToStatisticsResponse (serviceGetStatistics es jid)).total_trades : Rat) * 100) := by
  have hp := serviceGetStatistics_preserves es jid
  have htot : (ToStatisticsResponse (serviceGetStatistics es jid)).total_trades =
      countByJournalID es jid := by
    simp [ToStatisticsResponse, hp.1, storageGetStatistics_total]
  have hwins : (ToStatisticsResponse (serviceGetStatistics es jid)).wins =
      (storageGetStatistics es jid).wins.getD 0 := by
    simp [ToStatisticsResponse, hp.2.1]
  have hw : (ToStatisticsResponse (serviceGetStatistics es jid)).win_rate =
      (serviceGetStatistics es jid).win_rate.getD 0 := rfl
  constructor
  · intro h0
    rw [htot] at h0
    rw [hw, serviceGetStatistics_win_rate, h0]
    simp
  · intro hpos
    rw [htot] at hpos
    rw [hw, serviceGetStatistics_win_rate, if_pos hpos, Option.getD_some, hwins, htot]

/-- Witness for C1: the empty journal (zero trades, zero win rate) and
the Scenario A one-TP-entry journal (win rate 100). -/
theorem C1_witness :
    (ToStatisticsResponse (serviceGetStatistics [] 1)).total_trades = 0 ∧
    (ToStatisticsResponse (serviceGetStatistics [] 1)).win_rate = 0 ∧
    (ToStatisticsResponse (serviceGetStatistics [sampleEntryTP] 1)).total_trades = 1 ∧
    (ToStatisticsResponse (serviceGetStatistics [sampleEntryTP] 1)).win_rate = 100 := by
  have h0 := C1_win_rate [] 1
  have h1 := C1_win_rate [sampleEntryTP] 1
  have e0 : (ToStatisticsResponse (serviceGetStatistics [] 1)).total_trades = 0 := rfl
  have e1 : (ToStatisticsResponse (serviceGetStatistics [sampleEntryTP] 1)).total_trades = 1 := rfl
  have e2 : (ToStatisticsResponse (serviceGetStatistics [sampleEntryTP] 1)).wins = 1 := rfl
  refine ⟨e0, h0.1 e0, e1, ?_⟩
  rw [h1.2 (by rw [e1]; exact Nat.one_pos), e1, e2]
  norm_num

/-- C2: for any store whose live entries under the journal all carry a
valid result (TP, SL or BE), the statistics response satisfies
`TotalTrades = Wins + Losses + BreakEven`, the empty store included, even
though the total and the buckets come from independent aggregate passes
and absent buckets are absent map keys defaulted to 0 by the mapper. -/
theorem C2_total_is_bucket_sum (es : List TradingJournalEntry) (jid : UUID)
    (h : ∀ e ∈ es, e.deleted = false → e.journalID = jid →
        tradeResultIsValid e.result = true) :
    (ToStatisticsResponse (serviceGetStatistics es jid)).total_trades =
      (ToStatisticsResponse (serviceGetStatistics es jid)).wins +
      (ToStatisticsResponse (serviceGetStatistics es jid)).losses +
      (ToStatisticsResponse (serviceGetStatistics es jid)).break_even := by
  have hp := serviceGetStatistics_preserves es jid
  simp only [ToStatisticsResponse, hp.1, hp.2.1, hp.2.2.1, hp.2.2.2]
  rw [storageGetStatistics_total, storageGetStatistics_wins,
    storageGetStatistics_losses, storageGetStatistics_break_even]
  simpa using count_partition es jid h

/-- Witness for C2 at the Scenario A store: 1 = 1 + 0 + 0. -/
theorem C2_witness :
    (∀ e ∈ [sampleEntryTP], e.deleted = false → e.journalID = 1 →
        tradeResultIsValid e.result = true) ∧
    (ToStatisticsResponse (serviceGetStatistics [sampleEntryTP] 1)).total_trades =
      (ToStatisticsResponse (serviceGetStatistics [sampleEntryTP] 1)).wins +
      (ToStatisticsResponse (serviceGetStatistics [sampleEntryTP] 1)).losses +
      (ToStatisticsResponse (serviceGetStatistics [sampleEntryTP] 1)).break_even := by
  have hv : ∀ e ∈ [sampleEntryTP], e.deleted = false → e.journalID = 1 →
      tradeResultIsValid e.result = true := by
    intro e he _ _
    rw [List.mem_singleton] at he
    subst he
    rfl
  exact ⟨hv, C2_total_is_bucket_sum [sampleEntryTP] 1 hv⟩

/-- A request with `MaxRR = 0` fails the `required,gt=0` struct
validation, whatever the other fields hold. -/
theorem validateEntryRequest_maxRR_zero (isURL : String → Bool)
    (req : TradingJournalEntryRequest) (h : req.maxRR = 0) :
    validateEntryRequest isURL req = false := by
  simp [validateEntryRequest, h]

/-- The Scenario-style valid request with `MaxRR = 0.01`. -/
def sampleRequest01 : TradingJournalEntryRequest :=
  { day := 1, asset := "EURUSD", ltf := "1H", htf := "4H", entryCharts := [],
    session := "london", tradeType := "swing", setup := none, direction := "buy",
    entryType := "market", realized := 241/2, maxRR := 1/100, result := "TP",
    notes := "" }

/-- The same request with `MaxRR = 0`. -/
def sampleRequestZero : TradingJournalEntryRequest :=
  { sampleRequest01 with maxRR := 0 }

/-- C7: for every create and every update request, `MaxRR = 0` is
rejected by the struct validation before any store access (the store
comes back unchanged), while the concrete request with `MaxRR = 0.01`
passes the whole create pipeline and the inserted entry carries
`MaxRR = 0.01`; the handler pipelines are the only paths by which an
entry reaches the store. -/
theorem C7_maxRR_boundary :
    (∀ (isURL : String → Bool) (js : List TradingJournal)
        (es : List TradingJournalEntry) (newID journalID : UUID)
        (req : TradingJournalEntryRequest), req.maxRR = 0 →
      handlerCreateEntry isURL js es newID journalID req =
        (es, .error "validation failed")) ∧
    (∀ (isURL : String → Bool) (es : List TradingJournalEntry)
        (entryID journalID : UUID) (req : TradingJournalEntryRequest), req.maxRR = 0 →
      handlerUpdateEntry isURL es entryID journalID req =
        (es, .error "validation failed")) ∧
    handlerCreateEntry (fun _ => true) [sampleJournal] [] 10 1 sampleRequest01 =
      ([newEntryFromRequest 10 1 sampleRequest01],
       .ok (newEntryFromRequest 10 1 sampleRequest01)) ∧
    (newEntryFromRequest 10 1 sampleRequest01).maxRR = 1/100 := by
  have hval : validateEntryRequest (fun _ => true) sampleRequest01 = true := by
    norm_num [validateEntryRequest, sampleRequest01]
    decide
  have hj : journalStorageGetByID [sampleJournal] 1 = some sampleJournal := rfl
  have hv2 : (newEntryFromRequest 10 1 sampleRequest01).Validate = none := rfl
  refine ⟨?_, ?_, ?_, rfl⟩
  · intro isURL js es newID journalID req h
    simp [handlerCreateEntry, validateEntryRequest_maxRR_zero isURL req h]
  · intro isURL es entryID journalID req h
    simp [handlerUpdateEntry, validateEntryRequest_maxRR_zero isURL req h]
  · simp [handlerCreateEntry, hval, hj, hv2]

/-- Witness for C7: the `MaxRR = 0` request is refused on both pipelines
with the stores unchanged. -/
theorem C7_witness :
    handlerCreateEntry (fun _ => true) [sampleJournal] [] 10 1 sampleRequestZero =
      ([], .error "validation failed") ∧
    handlerUpdateEntry (fun _ => true) [sampleEntryTP] 10 1 sampleRequestZero =
      ([sampleEntryTP], .error "validation failed") :=
  ⟨C7_maxRR_boundary.1 (fun _ => true) [sampleJournal] [] 10 1 sampleRequestZero rfl,
   C7_maxRR_boundary.2.1 (fun _ => true) [sampleEntryTP] 10 1 sampleRequestZero rfl⟩

/-- C8: with a cache configured, a Get returning a non-empty string that
deserializes is served from the cache without a store read and without
changing the cache; on a Get error (a miss included), the store is read
and its result returned, a successful read is written back under the
`"journal:" + id` key with the fixed 15-minute expiry, and a failing
cache write is swallowed — the call still succeeds with the store's
journal and the cache is left as it was. -/
theorem C8_cache_lookaside (enc : TradingJournal → String)
    (dec : String → Option TradingJournal) (c : Cache)
    (js : List TradingJournal) (id : UUID) :
    (∀ s j, cacheGet c (journalCacheKey id) = .ok s → s ≠ "" → dec s = some j →
      cachedServiceGetByID enc dec (some c) js id =
        { journal := some j, storeRead := false, cache := some c }) ∧
    (cacheGet c (journalCacheKey id) = .error () →
      (cachedServiceGetByID enc dec (some c) js id).journal =
          journalStorageGetByID js id ∧
      (cachedServiceGetByID enc dec (some c) js id).storeRead = true) ∧
    (∀ j, cacheGet c (journalCacheKey id) = .error () →
      journalStorageGetByID js id = some j → c.setFails = false →
      (cachedServiceGetByID enc dec (some c) js id).cache =
        some { c with store := (journalCacheKey id, enc j, 15) ::
            c.store.filter (fun p => !(p.1 == journalCacheKey id)) }) ∧
    (∀ j, cacheGet c (journalCacheKey id) = .error () →
      journalStorageGetByID js id = some j → c.setFails = true →
      cachedServiceGetByID enc dec (some c) js id =
        { journal := some j, storeRead := true, cache := some c }) := by
  refine ⟨?_, ?_, ?_, ?_⟩
  · intro s j hget hs hdec
    simp [cachedServiceGetByID, hget, hs, hdec]
  · intro hget
    cases hdb : journalStorageGetByID js id <;>
      simp [cachedServiceGetByID, hget, cachedServiceGetByIDStore, hdb]
  · intro j hget hdb hsf
    simp [cachedServiceGetByID, hget, cachedServiceGetByIDStore, hdb, cacheSet, hsf]
  · intro j hget hdb hsf
    simp [cachedServiceGetByID, hget, cachedServiceGetByIDStore, hdb, cacheSet, hsf]

def sampleCacheHit : Cache :=
  { store := [("journal:1", "J1", 15)], getFails := false, setFails := false,
    deleteFails := false }

def sampleCacheEmpty : Cache :=
  { store := [], getFails := false, setFails := false, deleteFails := false }

def sampleCacheSetFails : Cache :=
  { store := [], getFails := false, setFails := true, deleteFails := false }

def sampleDec (s : String) : Option TradingJournal :=
  if s == "J1" then some sampleJournal else none

/-- Witness for C8: a cache hit served without a store read, a miss that
reads the store and populates the key with the 15-minute expiry, and a
failing write that is swallowed. -/
theorem C8_witness :
    cachedServiceGetByID (fun _ => "J1") sampleDec (some sampleCacheHit)
        [sampleJournal] 1 =
      { journal := some sampleJournal, storeRead := false,
        cache := some sampleCacheHit } ∧
    (cachedServiceGetByID (fun _ => "J1") sampleDec (some sampleCacheEmpty)
        [sampleJournal] 1).journal = journalStorageGetByID [sampleJournal] 1 ∧
    (cachedServiceGetByID (fun _ => "J1") sampleDec (some sampleCacheEmpty)
        [sampleJournal] 1).cache =
      some { sampleCacheEmpty with store := [("journal:1", "J1", 15)] } ∧
    cachedServiceGetByID (fun _ => "J1") sampleDec (some sampleCacheSetFails)
        [sampleJournal] 1 =
      { journal := some sampleJournal, storeRead := true,
        cache := some sampleCacheSetFails } := by
  have h1 := C8_cache_lookaside (fun _ => "J1") sampleDec sampleCacheHit [sampleJournal] 1
  have h2 := C8_cache_lookaside (fun _ => "J1") sampleDec sampleCacheEmpty [sampleJournal] 1
  have h3 := C8_cache_lookaside (fun _ => "J1") sampleDec sampleCacheSetFails [sampleJournal] 1
  refine ⟨h1.1 "J1" sampleJournal rfl (by decide) rfl, (h2.2.1 rfl).1, ?_, ?_⟩
  · have := h2.2.2.1 sampleJournal rfl rfl rfl
    simpa using this
  · exact h3.2.2.2 sampleJournal rfl rfl rfl

/-- C3 counterexample: the statistics endpoint and the journal read
perform no `JournalBelongsToUser` check at all.  With journal 1 owned by
user 1, the check fails for caller user 2, yet the statistics handler
returns the journal's aggregated data (1 trade) and the journal read
handler returns the journal itself — both handlers never consult any
caller id. -/
theorem C3_counterexample :
    journalStorageExists [sampleJournal] 1 2 = false ∧
    handlerGetStatistics [sampleEntryTP] 1 =
      .ok (ToStatisticsResponse (serviceGetStatistics [sampleEntryTP] 1)) ∧
    (ToStatisticsResponse (serviceGetStatistics [sampleEntryTP] 1)).total_trades = 1 ∧
    handlerJournalGetByID [sampleJournal] 1 = .ok sampleJournal :=
  ⟨by decide, rfl, rfl, rfl⟩

/-- C3 amended: entry-level `GetByID` and `Update` verify
`EntryBelongsToJournal` with the journal id from the route path before
operating — no entry data is returned and no mutation occurs when the
check fails — and both deletes confirm ownership in the service; but the
journal-level reads and the statistics endpoint perform no
`JournalBelongsToUser` check: they succeed for every journal id with no
caller id consulted. -/
theorem C3_access_checks_amended (js : List TradingJournal)
    (es : List TradingJournalEntry) (isURL : String → Bool)
    (req : TradingJournalEntryRequest) (entryID journalID id userID : UUID)
    (j : TradingJournal) :
    (entryServiceVerifyAccess es entryID journalID = false →
      handlerEntryGetByID es journalID entryID = .error "access denied") ∧
    (entryServiceVerifyAccess es entryID journalID = false →
      (handlerUpdateEntry isURL es entryID journalID req).1 = es ∧
      ∀ e, (handlerUpdateEntry isURL es entryID journalID req).2 ≠ .ok e) ∧
    (entryStorageExists es entryID journalID = false →
      entryServiceDelete es entryID journalID =
        (es, .error "trading journal entry not found or access denied")) ∧
    (journalStorageExists js id userID = false →
      directServiceDelete js id userID =
        (js, .error "trading journal not found or access denied")) ∧
    (handlerGetStatistics es journalID =
      .ok (ToStatisticsResponse (serviceGetStatistics es journalID))) ∧
    (journalStorageGetByID js id = some j →
      handlerJournalGetByID js id = .ok j) := by
  refine ⟨?_, ?_, ?_, ?_, rfl, ?_⟩
  · intro h
    simp [handlerEntryGetByID, h]
  · intro h
    by_cases hv : validateEntryRequest isURL req <;>
      simp [handlerUpdateEntry, hv, h]
  · exact entryServiceDelete_not_owner es entryID journalID
  · exact directServiceDelete_not_owner js id userID
  · intro h
    simp [handlerJournalGetByID, directServiceGetByID, h]

/-- Witness for the amended C3 at a concrete store: the wrong journal id
is refused on the entry endpoints, both deletes are refused, and the
unchecked journal read succeeds. -/
theorem C3_witness :
    handlerEntryGetByID [sampleEntryTP] 2 10 = .error "access denied" ∧
    (handlerUpdateEntry (fun _ => true) [sampleEntryTP] 10 2 sampleRequest01).1 =
      [sampleEntryTP] ∧
    entryServiceDelete [sampleEntryTP] 10 2 =
      ([sampleEntryTP], .error "trading journal entry not found or access denied") ∧
    directServiceDelete [sampleJournal] 1 2 =
      ([sampleJournal], .error "trading journal not found or access denied") ∧
    handlerJournalGetByID [sampleJournal] 1 = .ok sampleJournal := by
  have h := C3_access_checks_amended [sampleJournal] [sampleEntryTP] (fun _ => true)
    sampleRequest01 10 2 1 2 sampleJournal
  exact ⟨h.1 (by decide), (h.2.1 (by decide)).1, h.2.2.1 (by decide),
    h.2.2.2.1 (by decide), h.2.2.2.2.2 rfl⟩

end Normark
